import Mathlib

/-!
Verification of the cms-notifier change-detection and notification-dispatch
program (src/src/main.py) against its natural-language specification.

The Python source is shallowly embedded: Python dicts become association
lists built by in-place update (`dictSet`), the two JSON version files become
the `Storage` record (with `Option` marking a missing or unparsable file),
Python `str(int)` becomes `pyStr`, the OpenAI call becomes an `AIResult`
oracle, the HTTP transport becomes a `Nat → Bool` oracle indexed by the
0-based attempt number, and exceptions become `Except` / sum-shaped results.
Every definition is translated from the source, with the source line numbers
noted in its doc comment.
-/

namespace CMSNotifier

/-- A file entry as scraped by `parse_files` (main.py lines 182-209):
a dict with keys `filename` and `category`. -/
structure FileEntry where
  filename : String
  category : String
  deriving DecidableEq, Repr

/-- Python dict update `d[k] = v`: if the key is present its value is
replaced in place (insertion position kept), otherwise the pair is appended.
Models CPython dict semantics for the string-keyed dicts of main.py. -/
def dictSet : List (String × α) → String → α → List (String × α)
  | [], k, v => [(k, v)]
  | (k', v') :: m, k, v =>
    if k' = k then (k, v) :: m else (k', v') :: dictSet m k v

/-- Python dict lookup `d.get(k)`: first (and, for dicts, only) binding. -/
def dictGet? : List (String × α) → String → Option α
  | [], _ => none
  | (k', v) :: m, k => if k' = k then some v else dictGet? m k

/-- The dict comprehension from `diff_files` (main.py lines 321-322):
for lists with repeated filenames, the last entry wins. -/
def buildDict (files : List FileEntry) : List (String × FileEntry) :=
  files.foldl (fun d f => dictSet d f.filename f) []

/-- `diff_files` (main.py lines 318-325): build filename-keyed dicts of both
lists, then return the values of `new_set` whose key is absent from
`old_set`, in `new_set` insertion order. -/
def diff_files (old_files new_files : List FileEntry) : List FileEntry :=
  let old_set := buildDict old_files
  let new_set := buildDict new_files
  (new_set.filter (fun p => (dictGet? old_set p.1).isNone)).map (fun p => p.2)

/-- Decimal digits of `n`, most significant first, with explicit fuel
(first argument) so the definition is structural; with fuel `> n` it mirrors
the usual repeated division by 10. -/
def natDecimalDigitsAux : Nat → Nat → List Nat
  | 0, _ => []
  | fuel + 1, n =>
    if n < 10 then [n] else natDecimalDigitsAux fuel (n / 10) ++ [n % 10]

/-- Decimal digits of `n`, most significant first. -/
def natDecimalDigits (n : Nat) : List Nat :=
  natDecimalDigitsAux (n + 1) n

/-- Value of a most-significant-first decimal digit list. -/
def digitsVal (ds : List Nat) : Nat :=
  ds.foldl (fun a d => 10 * a + d) 0

/-- Python `str(course_id)` for the (non-negative) course ids of main.py:
the decimal numeral, used as the JSON dict key (main.py lines 227, 233,
239, 245). -/
def pyStr (n : Nat) : String :=
  ⟨(natDecimalDigits n).map Nat.digitChar⟩

/-- Python whitespace for `str.strip()`: space, tab, newline, carriage
return, vertical tab, form feed. -/
def pySpace (c : Char) : Bool :=
  c = ' ' || c = '\t' || c = '\n' || c = '\r' || c = Char.ofNat 11 || c = Char.ofNat 12

/-- Python `s.strip()`: drop leading and trailing whitespace. -/
def pyStrip (s : String) : String :=
  ⟨((s.data.dropWhile pySpace).reverse.dropWhile pySpace).reverse⟩

/-- Python `s.split("\n")` on the character list: empty pieces are kept, the
empty string yields one empty piece. -/
def splitLines : List Char → List (List Char)
  | [] => [[]]
  | c :: cs =>
    match splitLines cs with
    | [] => [[c]]
    | l :: ls => if c = '\n' then [] :: l :: ls else (c :: l) :: ls

/-- Python `s.startswith(p)`. -/
def strStartsWith : List Char → List Char → Bool
  | _, [] => true
  | [], _ :: _ => false
  | c :: cs, p :: ps => c = p && strStartsWith cs ps

/-- If `pat` is an initial run of `s`, return the remainder of `s`. -/
def matchHead? : List Char → List Char → Option (List Char)
  | [], s => some s
  | _ :: _, [] => none
  | p :: ps, c :: cs => if c = p then matchHead? ps cs else none

/-- Replace every non-overlapping occurrence of `pat`, left to right, as
Python `s.replace(pat, rep)` does for a non-empty `pat`.  The fuel (third
argument) only needs to be at least `s.length`. -/
def replaceAll (pat rep : List Char) : Nat → List Char → List Char
  | _, [] => []
  | 0, s => s
  | fuel + 1, c :: cs =>
    match matchHead? pat (c :: cs) with
    | some rest => rep ++ replaceAll pat rep fuel rest
    | none => c :: replaceAll pat rep fuel cs

/-- Python `s.replace(pat, rep)` for the non-empty patterns used by
main.py (the empty-pattern case never occurs there and is left as `s`). -/
def pyReplace (s pat rep : String) : String :=
  if pat.data.isEmpty then s else ⟨replaceAll pat.data rep.data s.data.length s.data⟩

/-- The reply parsing of `diff_description` (main.py lines 294-306): strip
the content, split into lines, and scan the lines in order, a line starting
with the TITLE marker setting the title and otherwise a line starting with
the BODY marker setting the body (later matching lines overwrite earlier
ones); both fields start out empty. -/
def parse_ai_reply (content : String) : String × String :=
  let lines := (splitLines (pyStrip content).data).map (fun l => String.mk l)
  lines.foldl
    (fun tb line =>
      if strStartsWith line.data ("TITLE:").data then
        (pyStrip (pyReplace line ("TITLE:") ("")), tb.2)
      else if strStartsWith line.data ("BODY:").data then
        (tb.1, pyStrip (pyReplace line ("BODY:") ("")))
      else tb)
    (("", ""))

/-- Outcome of the external OpenAI interaction in `diff_description`
(main.py lines 265-291): the configuration gate `USE_OPENAI` being off
(which raises ValueError), the call itself raising, or the call returning a
message content (which Python types as `str | None`). -/
inductive AIResult where
  | disabled
  | raised
  | reply (content : Option String)
  deriving DecidableEq

/-- The body of the `try` block of `diff_description` (main.py lines
265-308): `none` means some step raised and control passes to the `except`
handler — the gate is off, the call raised, the content is `None` or empty,
or after parsing one of the two fields is still empty. -/
def runAI : AIResult → Option (String × String)
  | .disabled => none
  | .raised => none
  | .reply none => none
  | .reply (some content) =>
    if content = "" then none
    else
      let tb := parse_ai_reply content
      if tb.1 = "" ∨ tb.2 = "" then none else some tb

/-- `diff_description` (main.py lines 249-315): fixed copy for the
created/added/removed transitions (Python truthiness of `str` is
non-emptiness), and for the remaining case the AI-produced pair when the
`try` block succeeds, else the fixed Updated fallback from the `except`
handler. -/
def diff_description (ai : AIResult) (old_description new_description : String) :
    String × String :=
  if old_description = "" ∧ new_description = "" then
    ("New Course Created",
      "A new course has been created. Check the course page for details.")
  else if old_description = "" then
    ("New Description Added",
      "Description has been added. Check the course page for details.")
  else if new_description = "" then
    ("Description Removed", "The course description has been removed.")
  else
    match runAI ai with
    | some tb => tb
    | none =>
      ("Description Updated",
        "Course description has been updated. Check the course page for details.")

/-- The two JSON version files, as parsed values: `none` models a missing
or unparsable file (`load_version` returning `None`, main.py lines
217-222); entries map `str(course_id)` to the stored content (the
`{"content": ...}` wrapper written by the save functions is collapsed to
its single field, which every saved entry has). -/
structure Storage where
  descriptions : Option (List (String × String))
  files : Option (List (String × List FileEntry))
  deriving DecidableEq

/-- `save_description_version` (main.py lines 225-228): load the dict
(missing/corrupt becomes `{}`), set the key for this course, rewrite the
whole file. -/
def save_description_version (st : Storage) (course_id : Nat) (description : String) :
    Storage :=
  { st with
    descriptions :=
      some (dictSet (st.descriptions.getD []) (pyStr course_id) description) }

/-- `save_files_version` (main.py lines 231-234). -/
def save_files_version (st : Storage) (course_id : Nat) (files : List FileEntry) :
    Storage :=
  { st with
    files := some (dictSet (st.files.getD []) (pyStr course_id) files) }

/-- `load_description_version` (main.py lines 237-240): missing file,
missing key, all default to the empty string. -/
def load_description_version (st : Storage) (course_id : Nat) : String :=
  (dictGet? (st.descriptions.getD []) (pyStr course_id)).getD ""

/-- `load_files_version` (main.py lines 243-246): defaults to `[]`. -/
def load_files_version (st : Storage) (course_id : Nat) : List FileEntry :=
  (dictGet? (st.files.getD []) (pyStr course_id)).getD []

/-- The store's `put` for a whole snapshot, as the polling loop performs it:
one description save and one file-list save for the same course. -/
def put_snapshot (st : Storage) (course_id : Nat) (snap : String × List FileEntry) :
    Storage :=
  save_files_version (save_description_version st course_id snap.1) course_id snap.2

/-- The store's `get` for a whole snapshot: the stored description (empty
string when absent) and the stored file list (empty when absent). -/
def get_snapshot (st : Storage) (course_id : Nat) : String × List FileEntry :=
  (load_description_version st course_id, load_files_version st course_id)

/-- One course row from `fetch_all_courses` (main.py lines 86-131):
`(course_code, course_name, course_id, season_id)`. -/
structure Course where
  code : String
  name : String
  id : Nat
  seasonId : Nat
  deriving DecidableEq

/-- The course page URL built by the main loop (main.py line 427). -/
def course_url (c : Course) : String :=
  "https://cms.guc.edu.eg/apps/student/CourseViewStn.aspx?id=" ++ pyStr c.id
    ++ "&sid=" ++ pyStr c.seasonId

/-- The JSON payload handed to `send_notification` (main.py lines 328-343):
title, body, category, optional url. -/
structure NotificationEvent where
  title : String
  body : String
  category : String
  url : Option String
  deriving DecidableEq

/-- `notify_description_change` (main.py lines 380-390): one event whose
title wraps the summarizer title with the course code and name, category
fixed to cms-description. -/
def notify_description_event (ai : AIResult) (c : Course)
    (old_description new_description : String) : NotificationEvent :=
  let tb := diff_description ai old_description new_description
  { title := "(" ++ c.code ++ ") " ++ c.name ++ " - " ++ tb.1
    body := tb.2
    category := "cms-description"
    url := some (course_url c) }

/-- `notify_files_change` (main.py lines 393-407): one event per entry of
`diff_files old new`, category fixed to cms-files. -/
def notify_files_events (c : Course) (old_files new_files : List FileEntry) :
    List NotificationEvent :=
  (diff_files old_files new_files).map fun f =>
    { title := "(" ++ c.code ++ ") " ++ c.name ++ " - New file just dropped"
      body := f.filename ++ " (" ++ f.category ++ ")"
      category := "cms-files"
      url := some (course_url c) }

/-- The per-course body of the main loop after a successful fetch and parse
(main.py lines 430-452).  `new_description` is `parse_description`'s result
(`str | None`); truthiness of the description guard is `some` of a
non-empty string.  Returns the updated storage and the list of events
passed to `send_notification`, in dispatch order. -/
def check_course (ai : AIResult) (c : Course) (new_description : Option String)
    (new_files : List FileEntry) (st : Storage) : Storage × List NotificationEvent :=
  let old_description := load_description_version st c.id
  let old_files := load_files_version st c.id
  let step1 : Storage × List NotificationEvent :=
    match new_description with
    | none => (st, [])
    | some s =>
      if s ≠ "" ∧ old_description ≠ s then
        (save_description_version st c.id s,
          [notify_description_event ai c old_description s])
      else (st, [])
  let step2 : Storage × List NotificationEvent :=
    if new_files ≠ [] ∧ old_files ≠ new_files then
      (save_files_version step1.1 c.id new_files,
        notify_files_events c old_files new_files)
    else (step1.1, [])
  (step2.1, step1.2 ++ step2.2)

/-- The configuration consulted by `send_notification` (main.py lines
331-339): whether `NOTIFICATION_ENDPOINT` is set and whether
`SEND_NOTIFICATIONS` is on. -/
structure DispatchConfig where
  endpointConfigured : Bool
  sendNotifications : Bool
  deriving DecidableEq

/-- What `send_notification` does for one event: early return with no
attempt (endpoint unset), console print with no attempt (notifications
disabled), success after the recorded number of attempts, or giving the
event up after the recorded number of attempts.  The function always
returns; `requests.RequestException` is caught inside. -/
inductive SendResult where
  | skippedNoEndpoint
  | printedDisabled
  | delivered (attemptsMade : Nat)
  | dropped (attemptsMade : Nat)
  deriving DecidableEq

/-- The backoff computation of `send_notification` (main.py line 374):
`min(base_delay * (2 ** attempt), max_delay)` with `attempt` the 0-based
index of the attempt that just failed. -/
def backoff_delay (base_delay max_delay attempt : Nat) : Nat :=
  min (base_delay * 2 ^ attempt) max_delay

/-- The retry loop of `send_notification` (main.py lines 350-377).
`transport attempt = true` models the POST at that 0-based attempt
returning a 2xx status; `false` models any `requests.RequestException`
(non-2xx via `raise_for_status`, network error, timeout).  `remaining` is
`max_retries - attempt`; the `remaining = 0` test inside corresponds to
`attempt == max_retries - 1`.  Returns the outcome and the list of delays
slept, in order. -/
def send_attempts (transport : Nat → Bool) (base_delay max_delay : Nat) :
    Nat → Nat → SendResult × List Nat
  | attempt, 0 => (SendResult.dropped attempt, [])
  | attempt, remaining + 1 =>
    if transport attempt then (SendResult.delivered (attempt + 1), [])
    else if remaining = 0 then (SendResult.dropped (attempt + 1), [])
    else
      let d := backoff_delay base_delay max_delay attempt
      let r := send_attempts transport base_delay max_delay (attempt + 1) remaining
      (r.1, d :: r.2)

/-- `send_notification` (main.py lines 328-377): early exits for a missing
endpoint and for disabled notifications, then the retry loop with the
hard-coded `max_retries = 5`, `base_delay = 1`, `max_delay = 300`. -/
def send_notification (cfg : DispatchConfig) (transport : Nat → Bool) :
    SendResult × List Nat :=
  if cfg.endpointConfigured = false then (SendResult.skippedNoEndpoint, [])
  else if cfg.sendNotifications = false then (SendResult.printedDisabled, [])
  else send_attempts transport 1 300 0 5

/-- One course turn of the main loop including the fetch and parse steps
(main.py lines 424-452): the fetch oracle may raise (`Except.error`, as
`fetch_page`/parsing may); on success the per-course body runs.  Nothing
after the parse step raises: `diff_description` and `send_notification`
catch their own exceptions (modeled by their totality). -/
def process_course (fetch : Course → Except String (Option String × List FileEntry))
    (ai : AIResult) (c : Course) (st : Storage) :
    Except String (Storage × List NotificationEvent) :=
  match fetch c with
  | .error e => .error e
  | .ok (nd, nf) => .ok (check_course ai c nd nf st)

/-- One polling cycle (the `for` loop of main.py lines 423-456): each
course is processed in order inside `try`/`except Exception`/`continue`, so
a raising course contributes `none` and leaves the storage as it was, and
the loop moves to the next course.  Returns the final storage and, per
course in order, the events it dispatched (`none` when it raised). -/
def run_cycle (fetch : Course → Except String (Option String × List FileEntry))
    (ai : AIResult) : List Course → Storage →
    Storage × List (Course × Option (List NotificationEvent))
  | [], st => (st, [])
  | c :: rest, st =>
    match process_course fetch ai c st with
    | .ok (st', evs) =>
      let r := run_cycle fetch ai rest st'
      (r.1, (c, some evs) :: r.2)
    | .error _ =>
      let r := run_cycle fetch ai rest st
      (r.1, (c, none) :: r.2)

/-- `k` iterations of the outer `while True` loop (main.py lines 422-459),
collecting each cycle's per-course results. -/
def run_cycles (fetch : Course → Except String (Option String × List FileEntry))
    (ai : AIResult) (courses : List Course) :
    Nat → Storage → Storage × List (List (Course × Option (List NotificationEvent)))
  | 0, st => (st, [])
  | k + 1, st =>
    let r := run_cycle fetch ai courses st
    let rs := run_cycles fetch ai courses k r.1
    (rs.1, r.2 :: rs.2)

/-! ### Association-list (Python dict) laws -/

theorem dictGet?_dictSet {α : Type} (m : List (String × α)) (k k' : String) (v : α) :
    dictGet? (dictSet m k v) k' = if k = k' then some v else dictGet? m k' := by
  induction m with
  | nil => simp [dictSet, dictGet?]
  | cons p m ih =>
    obtain ⟨a, b⟩ := p
    simp only [dictSet]
    by_cases hak : a = k
    · subst hak
      by_cases h : a = k' <;> simp [dictGet?, h]
    · simp only [if_neg hak, dictGet?, ih]
      by_cases h1 : a = k' <;> by_cases h2 : k = k' <;> simp_all

theorem dictGet?_append {α : Type} (m1 m2 : List (String × α)) (k : String) :
    dictGet? (m1 ++ m2) k =
      match dictGet? m1 k with
      | some v => some v
      | none => dictGet? m2 k := by
  induction m1 with
  | nil => simp [dictGet?]
  | cons p m ih =>
    obtain ⟨a, b⟩ := p
    by_cases h : a = k <;> simp [dictGet?, h, ih]

theorem dictSet_of_not_mem {α : Type} (m : List (String × α)) (k : String) (v : α)
    (h : dictGet? m k = none) : dictSet m k v = m ++ [(k, v)] := by
  induction m with
  | nil => simp [dictSet]
  | cons p m ih =>
    obtain ⟨a, b⟩ := p
    simp only [dictGet?] at h
    by_cases hak : a = k
    · simp [hak] at h
    · simp only [if_neg hak] at h
      simp [dictSet, hak, ih h]

theorem dictGet?_buildDict_aux (fs : List FileEntry) (m : List (String × FileEntry))
    (k : String) :
    dictGet? (fs.foldl (fun d f => dictSet d f.filename f) m) k = none ↔
      (k ∉ fs.map FileEntry.filename ∧ dictGet? m k = none) := by
  induction fs generalizing m with
  | nil => simp [buildDict]
  | cons f fs ih =>
    simp only [List.foldl_cons, List.map_cons, List.mem_cons]
    rw [ih, dictGet?_dictSet]
    by_cases hk : f.filename = k
    · simp [hk]
    · have hk' : ¬ k = f.filename := fun h => hk h.symm
      simp only [if_neg hk]
      constructor
      · rintro ⟨h1, h2⟩
        exact ⟨fun h => h.elim (fun he => hk' he) h1, h2⟩
      · rintro ⟨h1, h2⟩
        exact ⟨fun hm => h1 (Or.inr hm), h2⟩

theorem buildDict_of_nodup (fs : List FileEntry) :
    ∀ m : List (String × FileEntry),
      (fs.map FileEntry.filename).Nodup →
      (∀ f ∈ fs, dictGet? m f.filename = none) →
      fs.foldl (fun d g => dictSet d g.filename g) m =
        m ++ fs.map (fun f => (f.filename, f)) := by
  induction fs with
  | nil => intro m _ _; simp
  | cons f fs ih =>
    intro m hnd hm
    simp only [List.foldl_cons, List.map_cons]
    rw [dictSet_of_not_mem _ _ _ (hm f (by simp))]
    have hc : (f.filename :: fs.map FileEntry.filename).Nodup := by
      simpa using hnd
    have hnd' : (fs.map FileEntry.filename).Nodup := (List.nodup_cons.mp hc).2
    have hhead : f.filename ∉ fs.map FileEntry.filename := (List.nodup_cons.mp hc).1
    rw [ih (m ++ [(f.filename, f)]) hnd' ?_]
    · simp
    · intro g hg
      rw [dictGet?_append]
      rw [hm g (by simp [hg])]
      have : f.filename ≠ g.filename := by
        intro he
        exact hhead (he ▸ List.mem_map_of_mem FileEntry.filename hg)
      simp [dictGet?, this]

/-! ### Decimal numerals -/

theorem digitsVal_append (ds : List Nat) (d : Nat) :
    digitsVal (ds ++ [d]) = 10 * digitsVal ds + d := by
  simp [digitsVal, List.foldl_append]

theorem digitsVal_natDecimalDigitsAux (fuel n : Nat) (h : n < fuel) :
    digitsVal (natDecimalDigitsAux fuel n) = n := by
  induction fuel generalizing n with
  | zero => omega
  | succ fuel ih =>
    simp only [natDecimalDigitsAux]
    by_cases h10 : n < 10
    · simp [h10, digitsVal]
    · have hdiv : n / 10 < fuel := by
        have : n / 10 < n := Nat.div_lt_self (by omega) (by omega)
        omega
      rw [if_neg h10, digitsVal_append, ih _ hdiv]
      omega

theorem natDecimalDigitsAux_lt (fuel n : Nat) :
    ∀ d ∈ natDecimalDigitsAux fuel n, d < 10 := by
  induction fuel generalizing n with
  | zero => simp [natDecimalDigitsAux]
  | succ fuel ih =>
    intro d hd
    simp only [natDecimalDigitsAux] at hd
    by_cases h10 : n < 10
    · simp [h10] at hd
      omega
    · rw [if_neg h10, List.mem_append] at hd
      rcases hd with hd | hd
      · exact ih _ d hd
      · simp at hd
        omega

theorem natDecimalDigits_inj (m n : Nat)
    (h : natDecimalDigits m = natDecimalDigits n) : m = n := by
  have hm : digitsVal (natDecimalDigits m) = m :=
    digitsVal_natDecimalDigitsAux (m + 1) m (Nat.lt_succ_self m)
  have hn : digitsVal (natDecimalDigits n) = n :=
    digitsVal_natDecimalDigitsAux (n + 1) n (Nat.lt_succ_self n)
  rw [← hm, ← hn, h]

theorem pyStr_injective (m n : Nat) (h : pyStr m = pyStr n) : m = n := by
  apply natDecimalDigits_inj
  have hdata : (natDecimalDigits m).map Nat.digitChar =
      (natDecimalDigits n).map Nat.digitChar := congrArg String.data h
  have hround : ∀ ds : List Nat, (∀ d ∈ ds, d < 10) →
      (ds.map Nat.digitChar).map (fun c => c.toNat - 48) = ds := by
    intro ds hds
    rw [List.map_map]
    have hpt : ∀ d ∈ ds, ((fun c : Char => c.toNat - 48) ∘ Nat.digitChar) d = id d := by
      intro d hd
      have hlt : d < 10 := hds d hd
      interval_cases d <;> rfl
    rw [List.map_congr_left hpt, List.map_id]
  rw [← hround (natDecimalDigits m) (natDecimalDigitsAux_lt _ _),
    ← hround (natDecimalDigits n) (natDecimalDigitsAux_lt _ _), hdata]

/-! ### Store lemmas -/

theorem load_description_save_description (st : Storage) (course_id : Nat)
    (d : String) :
    load_description_version (save_description_version st course_id d) course_id = d := by
  simp [load_description_version, save_description_version, dictGet?_dictSet]

theorem load_files_save_files (st : Storage) (course_id : Nat) (fs : List FileEntry) :
    load_files_version (save_files_version st course_id fs) course_id = fs := by
  simp [load_files_version, save_files_version, dictGet?_dictSet]

theorem descriptions_save_files (st : Storage) (course_id : Nat) (fs : List FileEntry) :
    (save_files_version st course_id fs).descriptions = st.descriptions := rfl

theorem files_save_description (st : Storage) (course_id : Nat) (d : String) :
    (save_description_version st course_id d).files = st.files := rfl

/-- C7: `put(id, snap)` followed by `get(id)` yields the same snapshot, and
`get` for an id with no stored entry — which covers a missing or unparsable
underlying file, since then the loaded mapping defaults to the empty dict —
yields the empty snapshot: empty description, empty file list
(main.py lines 212-246). -/
theorem C7_store_roundtrip (st : Storage) (course_id : Nat)
    (snap : String × List FileEntry) :
    get_snapshot (put_snapshot st course_id snap) course_id = snap ∧
    (dictGet? (st.descriptions.getD []) (pyStr course_id) = none →
      dictGet? (st.files.getD []) (pyStr course_id) = none →
      get_snapshot st course_id = ("", [])) := by
  constructor
  · obtain ⟨d, fs⟩ := snap
    simp only [get_snapshot, put_snapshot]
    rw [load_files_save_files]
    simp only [load_description_version, descriptions_save_files]
    rw [show (save_description_version st course_id d).descriptions =
      some (dictSet (st.descriptions.getD []) (pyStr course_id) d) from rfl]
    simp [dictGet?_dictSet]
  · intro h1 h2
    simp [get_snapshot, load_description_version, load_files_version, h1, h2]

/-- C7 witness: round trip and empty default at concrete inputs. -/
theorem C7_witness :
    get_snapshot (put_snapshot ⟨none, none⟩ 7 (("Welcome"), [⟨("a.pdf"), ("Lecture")⟩])) 7 =
      (("Welcome"), [⟨("a.pdf"), ("Lecture")⟩]) ∧
    get_snapshot ⟨none, none⟩ 7 = (("", [])) :=
  ⟨(C7_store_roundtrip ⟨none, none⟩ 7 (("Welcome"), [⟨("a.pdf"), ("Lecture")⟩])).1,
    (C7_store_roundtrip ⟨none, none⟩ 7 (("x"), [])).2 rfl rfl⟩

/-- C10: saving a description or a file list for course `c` leaves the
stored entry of any other course `c'` unchanged: `save_*_version` rewrites
the whole mapping but modifies only the key `str(c)` (main.py lines
225-234), and decimal keys of distinct ids are distinct. -/
theorem C10_store_frame (st : Storage) (c c' : Nat) (d : String)
    (fs : List FileEntry) (snap : String × List FileEntry) (h : c ≠ c') :
    load_description_version (save_description_version st c d) c' =
      load_description_version st c' ∧
    load_files_version (save_files_version st c fs) c' = load_files_version st c' ∧
    get_snapshot (put_snapshot st c snap) c' = get_snapshot st c' := by
  have hk : pyStr c ≠ pyStr c' := fun he => h (pyStr_injective _ _ he)
  refine ⟨?_, ?_, ?_⟩
  · simp only [load_description_version, save_description_version, Option.getD_some,
      dictGet?_dictSet, if_neg hk]
  · simp only [load_files_version, save_files_version, Option.getD_some,
      dictGet?_dictSet, if_neg hk]
  · simp only [get_snapshot, put_snapshot, load_description_version,
      load_files_version, save_files_version, save_description_version,
      Option.getD_some, dictGet?_dictSet, if_neg hk]

/-- C10 witness: the frame property at concrete distinct course ids. -/
theorem C10_witness :
    load_description_version (save_description_version ⟨none, none⟩ 1 ("x")) 2 =
      load_description_version ⟨none, none⟩ 2 ∧
    load_files_version (save_files_version ⟨none, none⟩ 1 []) 2 =
      load_files_version ⟨none, none⟩ 2 ∧
    get_snapshot (put_snapshot ⟨none, none⟩ 1 (("x"), [])) 2 =
      get_snapshot ⟨none, none⟩ 2 :=
  C10_store_frame ⟨none, none⟩ 1 2 ("x") [] (("x"), []) (by decide)

/-! ### C1: the file diff -/

/-- C1 counterexample: the claim quantifies over every pair of file lists,
but when `new` repeats a filename the dict comprehension of `diff_files`
keeps only the last entry per filename, so "exactly the entries of `new`
whose filename does not occur in `old`" (here, with `old = []`, all of
`new`) is not returned: only the deduplicated tail entry is. -/
theorem C1_counterexample :
    diff_files [] [⟨("a"), ("c1")⟩, ⟨("a"), ("c2")⟩] ≠
      [⟨("a"), ("c1")⟩, ⟨("a"), ("c2")⟩] ∧
    diff_files [] [⟨("a"), ("c1")⟩, ⟨("a"), ("c2")⟩] = [⟨("a"), ("c2")⟩] := by
  decide

/-- C1 (amended): when the filenames of `new` are pairwise distinct — the
snapshot uniqueness invariant, which `parse_files` output violates only if
the page repeats a filename — `diff_files old new` is exactly the entries
of `new` whose filename does not occur as a filename in `old`, in order;
hence an entry whose filename occurs in both lists is never returned even
when its category differs, and entries only in `old` are never returned. -/
theorem C1_diff_files_is_filename_filter (old_files new_files : List FileEntry)
    (h : (new_files.map FileEntry.filename).Nodup) :
    diff_files old_files new_files =
      new_files.filter
        (fun f => decide (f.filename ∉ old_files.map FileEntry.filename)) := by
  have hb : buildDict new_files = new_files.map (fun f => (f.filename, f)) := by
    have := buildDict_of_nodup new_files [] h (fun f _ => rfl)
    simpa [buildDict] using this
  show ((buildDict new_files).filter _).map _ = _
  rw [hb, List.filter_map, List.map_map]
  have hid : ((fun p : String × FileEntry => p.2) ∘ fun f : FileEntry => (f.filename, f))
      = id := rfl
  rw [hid, List.map_id]
  apply List.filter_congr
  intro f _
  have hiff := dictGet?_buildDict_aux old_files [] f.filename
  simp only [dictGet?, and_true] at hiff
  rw [show (old_files.foldl (fun d f => dictSet d f.filename f) []) =
    buildDict old_files from rfl] at hiff
  by_cases hmem : f.filename ∈ old_files.map FileEntry.filename
  · have hno : ¬ dictGet? (buildDict old_files) f.filename = none :=
      fun hn => (hiff.mp hn) hmem
    have hne : (dictGet? (buildDict old_files) f.filename).isNone = false := by
      cases hdg : dictGet? (buildDict old_files) f.filename
      · exact absurd hdg hno
      · rfl
    simp only [Function.comp]
    simp [hne, hmem]
  · have hyes : dictGet? (buildDict old_files) f.filename = none := hiff.mpr hmem
    simp only [Function.comp]
    simp [hyes, hmem]

/-- C1 witness: a category-only change and a genuinely new file. -/
theorem C1_witness :
    diff_files [⟨("a"), ("Lecture")⟩] [⟨("a"), ("Tutorial")⟩, ⟨("b"), ("Lab")⟩] =
      [⟨("a"), ("Tutorial")⟩, ⟨("b"), ("Lab")⟩].filter
        (fun f => decide (f.filename ∉
          ([⟨("a"), ("Lecture")⟩] : List FileEntry).map FileEntry.filename)) :=
  C1_diff_files_is_filename_filter _ _ (by decide)

/-! ### C3 and C6: the description summarizer -/

/-- C3: the summarizer implements the transition table with its fixed
titles — both absent/empty gives "New Course Created", absent-to-present
gives "New Description Added", present-to-absent gives "Description
Removed", and a pair of distinct non-empty texts is treated as Updated:
the AI-produced pair when the external call succeeds and parses, otherwise
the fixed Updated fallback (main.py lines 249-315). -/
theorem C3_description_transitions (ai : AIResult) (old_d new_d : String) :
    (old_d = "" ∧ new_d = "" → diff_description ai old_d new_d =
      (("New Course Created"),
        ("A new course has been created. Check the course page for details."))) ∧
    (old_d = "" ∧ new_d ≠ "" → diff_description ai old_d new_d =
      (("New Description Added"),
        ("Description has been added. Check the course page for details."))) ∧
    (old_d ≠ "" ∧ new_d = "" → diff_description ai old_d new_d =
      (("Description Removed"), ("The course description has been removed."))) ∧
    (old_d ≠ "" ∧ new_d ≠ "" ∧ old_d ≠ new_d → diff_description ai old_d new_d =
      (runAI ai).getD
        (("Description Updated"),
          ("Course description has been updated. Check the course page for details."))) := by
  refine ⟨?_, ?_, ?_, ?_⟩
  · rintro ⟨h1, h2⟩
    simp [diff_description, h1, h2]
  · rintro ⟨h1, h2⟩
    simp [diff_description, h1, h2]
  · rintro ⟨h1, h2⟩
    simp [diff_description, h1, h2]
  · rintro ⟨h1, h2, _⟩
    cases hr : runAI ai <;> simp [diff_description, h1, h2, hr]

/-- C3 witness: one concrete pair for each of the four transitions. -/
theorem C3_witness :
    diff_description AIResult.disabled ("") ("") =
      (("New Course Created"),
        ("A new course has been created. Check the course page for details.")) ∧
    diff_description AIResult.disabled ("") ("x") =
      (("New Description Added"),
        ("Description has been added. Check the course page for details.")) ∧
    diff_description AIResult.disabled ("x") ("") =
      (("Description Removed"), ("The course description has been removed.")) ∧
    diff_description AIResult.disabled ("x") ("y") =
      (runAI AIResult.disabled).getD
        (("Description Updated"),
          ("Course description has been updated. Check the course page for details.")) :=
  ⟨(C3_description_transitions AIResult.disabled ("") ("")).1 ⟨rfl, rfl⟩,
    (C3_description_transitions AIResult.disabled ("") ("x")).2.1 ⟨rfl, by decide⟩,
    (C3_description_transitions AIResult.disabled ("x") ("")).2.2.1 ⟨by decide, rfl⟩,
    (C3_description_transitions AIResult.disabled ("x") ("y")).2.2.2
      ⟨by decide, by decide, by decide⟩⟩

/-- C6: for a pair of distinct non-empty descriptions, every failure mode
of the external summarization — the configuration gate off, the call
raising, empty or missing content, or a reply from which the two fields
cannot both be parsed — lands in the `except` handler and yields the fixed
fallback pair; no error reaches the caller (the embedding of
`diff_description` is a total function, the `except Exception` handler of
main.py lines 310-315 consuming every raise). -/
theorem C6_updated_fallback (ai : AIResult) (old_d new_d : String)
    (h_old : old_d ≠ "") (h_new : new_d ≠ "") (_h_ne : old_d ≠ new_d)
    (hfail : ai = AIResult.disabled ∨ ai = AIResult.raised ∨
      ai = AIResult.reply none ∨ ai = AIResult.reply (some ("")) ∨
      ∃ content, ai = AIResult.reply (some content) ∧
        ((parse_ai_reply content).1 = "" ∨ (parse_ai_reply content).2 = "")) :
    diff_description ai old_d new_d =
      (("Description Updated"),
        ("Course description has been updated. Check the course page for details.")) := by
  have hnone : runAI ai = none := by
    rcases hfail with h | h | h | h | ⟨content, h, hp⟩ <;> subst h
    · rfl
    · rfl
    · rfl
    · rfl
    · by_cases hc : content = ""
      · simp [runAI, hc]
      · rcases hp with hp | hp <;> simp [runAI, hc, hp]
  simp [diff_description, h_old, h_new, hnone]

/-- C6 witness: a reply with no parsable TITLE or BODY line falls back. -/
theorem C6_witness :
    diff_description (AIResult.reply (some ("no markers here"))) ("a") ("b") =
      (("Description Updated"),
        ("Course description has been updated. Check the course page for details.")) :=
  C6_updated_fallback _ ("a") ("b") (by decide) (by decide) (by decide)
    (Or.inr (Or.inr (Or.inr (Or.inr
      ⟨("no markers here"), rfl, Or.inl (by decide)⟩))))

/-! ### C5 and C8: the dispatcher and its backoff -/

/-- C5: with the endpoint configured and notifications enabled, a transport
that fails every attempt makes `send_notification` perform exactly 5
attempts (the hard-coded `max_retries`) and return the dropped outcome —
the `except requests.RequestException` arm catches every transport failure,
so nothing propagates to the caller (the embedding is total) — while a
transport that first succeeds at attempt `n` makes it return the delivered
outcome immediately after that attempt, i.e. after `n + 1` attempts
(main.py lines 328-377). -/
theorem C5_dispatch_retries (cfg : DispatchConfig) (transport : Nat → Bool)
    (hE : cfg.endpointConfigured = true) (hS : cfg.sendNotifications = true) :
    ((∀ i, transport i = false) →
      send_notification cfg transport = (SendResult.dropped 5, [1, 2, 4, 8])) ∧
    (∀ n, n < 5 → (∀ i, i < n → transport i = false) → transport n = true →
      (send_notification cfg transport).1 = SendResult.delivered (n + 1)) := by
  constructor
  · intro h
    simp [send_notification, hE, hS, send_attempts, h, backoff_delay]
  · intro n hn h1 h2
    interval_cases n
    · simp [send_notification, hE, hS, send_attempts, h2]
    · simp [send_notification, hE, hS, send_attempts, h1 0 (by omega), h2]
    · simp [send_notification, hE, hS, send_attempts, h1 0 (by omega),
        h1 1 (by omega), h2]
    · simp [send_notification, hE, hS, send_attempts, h1 0 (by omega),
        h1 1 (by omega), h1 2 (by omega), h2]
    · simp [send_notification, hE, hS, send_attempts, h1 0 (by omega),
        h1 1 (by omega), h1 2 (by omega), h1 3 (by omega), h2]

/-- C5 witness: a permanently failing transport is dropped after 5
attempts with the slept delays 1, 2, 4, 8 seconds. -/
theorem C5_witness :
    send_notification ⟨true, true⟩ (fun _ => false) =
      (SendResult.dropped 5, [1, 2, 4, 8]) :=
  (C5_dispatch_retries ⟨true, true⟩ (fun _ => false) rfl rfl).1 (fun _ => rfl)

/-- C8 counterexample: the claim indexes attempts 1-based with attempt 2
the first retry and asserts the delay slept before attempt `n` is
`min(base * 2 ^ (n - 1), cap)`; but the delay the code sleeps before
attempt 2 (the head of the slept-delay list of a fully failing run) is
`min(1 * 2 ^ 0, 300) = 1`, not `min(1 * 2 ^ (2 - 1), 300) = 2`. -/
theorem C8_counterexample :
    ((send_notification ⟨true, true⟩ (fun _ => false)).2)[0]? ≠
      some (min (1 * 2 ^ (2 - 1)) 300) := by
  decide

/-- C8 (amended): backoff is the pure function
`backoff_delay base cap a = min (base * 2 ^ a) cap` of the 0-based index
`a` of the attempt that just failed, so the delay slept before (1-based)
attempt `n ≥ 2` is `min(base * 2 ^ (n - 2), cap)`; with base 1 and cap 300
its values at the five attempt indices are 1, 2, 4, 8, 16 (a fully failing
5-attempt run sleeps the first four), and no computed delay ever exceeds
the cap. -/
theorem C8_backoff_schedule (transport : Nat → Bool)
    (h : ∀ i, transport i = false) :
    (send_notification ⟨true, true⟩ transport).2 =
      [backoff_delay 1 300 0, backoff_delay 1 300 1, backoff_delay 1 300 2,
        backoff_delay 1 300 3] ∧
    (∀ n, 2 ≤ n → n ≤ 5 →
      ((send_notification ⟨true, true⟩ transport).2)[n - 2]? =
        some (min (1 * 2 ^ (n - 2)) 300)) ∧
    (List.range 5).map (backoff_delay 1 300) = [1, 2, 4, 8, 16] ∧
    ∀ base cap a, backoff_delay base cap a ≤ cap := by
  have hd : (send_notification ⟨true, true⟩ transport).2 =
      [backoff_delay 1 300 0, backoff_delay 1 300 1, backoff_delay 1 300 2,
        backoff_delay 1 300 3] := by
    simp [send_notification, send_attempts, h]
  refine ⟨hd, ?_, by decide, ?_⟩
  · intro n h2 h5
    rw [hd]
    interval_cases n <;> simp [backoff_delay]
  · intro base cap a
    exact min_le_right _ _

/-- C8 witness: the slept delays of a fully failing run are the backoff
function at attempt indices 0 through 3. -/
theorem C8_witness :
    (send_notification ⟨true, true⟩ (fun _ => false)).2 =
      [backoff_delay 1 300 0, backoff_delay 1 300 1, backoff_delay 1 300 2,
        backoff_delay 1 300 3] :=
  (C8_backoff_schedule (fun _ => false) (fun _ => rfl)).1

/-! ### C2 and C4: the main loop's persistence and dispatch decisions -/

theorem check_course_none (ai : AIResult) (c : Course) (nf : List FileEntry)
    (st : Storage) :
    check_course ai c none nf st =
      (if nf ≠ [] ∧ load_files_version st c.id ≠ nf then
        (save_files_version st c.id nf,
          notify_files_events c (load_files_version st c.id) nf)
      else (st, [])) := by
  simp only [check_course]
  split_ifs <;> simp

theorem check_course_some_untaken (ai : AIResult) (c : Course) (s : String)
    (nf : List FileEntry) (st : Storage)
    (h : ¬ (s ≠ "" ∧ load_description_version st c.id ≠ s)) :
    check_course ai c (some s) nf st =
      (if nf ≠ [] ∧ load_files_version st c.id ≠ nf then
        (save_files_version st c.id nf,
          notify_files_events c (load_files_version st c.id) nf)
      else (st, [])) := by
  simp only [check_course]
  rw [if_neg h]
  split_ifs <;> simp

theorem check_course_some_taken (ai : AIResult) (c : Course) (s : String)
    (nf : List FileEntry) (st : Storage)
    (h : s ≠ "" ∧ load_description_version st c.id ≠ s) :
    check_course ai c (some s) nf st =
      (if nf ≠ [] ∧ load_files_version st c.id ≠ nf then
        (save_files_version (save_description_version st c.id s) c.id nf,
          notify_description_event ai c (load_description_version st c.id) s ::
            notify_files_events c (load_files_version st c.id) nf)
      else (save_description_version st c.id s,
        [notify_description_event ai c (load_description_version st c.id) s])) := by
  simp only [check_course]
  rw [if_pos h]
  split_ifs <;> simp

/-- C2 counterexample: stored description "Welcome" (present), freshly
fetched description absent, empty fetched file list.  The loop's guard
`if new_description and old_description != new_description` is false for an
absent fetched description, so the cycle neither persists anything nor
dispatches any notification — in particular no "Description Removed"
event, although `diff_description` has a branch crafting exactly that
copy. -/
theorem C2_counterexample :
    check_course AIResult.disabled ⟨("CS101"), ("Intro"), 1, 2⟩ none []
        ⟨some [(("1"), ("Welcome"))], some []⟩ =
      (⟨some [(("1"), ("Welcome"))], some []⟩, []) := by
  decide

/-- C2 (amended): for a course whose stored description is present and
whose freshly fetched description is absent or empty, one polling cycle
leaves the stored description mapping unchanged and dispatches no
description notification: the guard of main.py line 436 requires a
non-empty fetched description, so the Removed copy of `diff_description`
is unreachable from the polling loop. -/
theorem C2_removed_description_is_ignored (ai : AIResult) (c : Course)
    (new_description : Option String) (new_files : List FileEntry) (st : Storage)
    (hnd : new_description = none ∨ new_description = some (""))
    (_hold : load_description_version st c.id ≠ "") :
    (check_course ai c new_description new_files st).1.descriptions =
      st.descriptions ∧
    ∀ e ∈ (check_course ai c new_description new_files st).2,
      e.category ≠ "cms-description" := by
  have hsplit : check_course ai c new_description new_files st =
      (if new_files ≠ [] ∧ load_files_version st c.id ≠ new_files then
        (save_files_version st c.id new_files,
          notify_files_events c (load_files_version st c.id) new_files)
      else (st, [])) := by
    rcases hnd with h | h <;> subst h
    · exact check_course_none ai c new_files st
    · exact check_course_some_untaken ai c ("") new_files st (fun hx => hx.1 rfl)
  rw [hsplit]
  split_ifs with hc
  · refine ⟨descriptions_save_files st c.id new_files, ?_⟩
    intro e he
    simp only [notify_files_events, List.mem_map] at he
    obtain ⟨f, _, rfl⟩ := he
    show ("cms-files" : String) ≠ ("cms-description")
    decide
  · exact ⟨rfl, by simp⟩

/-- C2 witness: the store's description mapping is untouched when the
fetched description is absent while the stored one is present. -/
theorem C2_witness :
    (check_course AIResult.disabled ⟨("CS101"), ("Intro"), 1, 2⟩ none []
        ⟨some [(("1"), ("Welcome"))], some []⟩).1.descriptions =
      (⟨some [(("1"), ("Welcome"))], some []⟩ : Storage).descriptions :=
  (C2_removed_description_is_ignored AIResult.disabled ⟨("CS101"), ("Intro"), 1, 2⟩
    none [] ⟨some [(("1"), ("Welcome"))], some []⟩ (Or.inl rfl) (by decide)).1

/-- C4 counterexample: stored files `[a.pdf/Lecture]`, fetched files
`[a.pdf/Tutorial]` — a category-only change, which `diff_files` reports as
no addition.  The loop's guard `if new_files and old_files != new_files`
compares the raw lists, so it does overwrite the stored snapshot (while
dispatching nothing), contradicting "the stored snapshot remains
unchanged". -/
theorem C4_counterexample :
    (check_course AIResult.disabled ⟨("CS101"), ("Intro"), 1, 2⟩ none
        [⟨("a.pdf"), ("Tutorial")⟩]
        ⟨some [], some [(("1"), [⟨("a.pdf"), ("Lecture")⟩])]⟩).1 ≠
      ⟨some [], some [(("1"), [⟨("a.pdf"), ("Lecture")⟩])]⟩ ∧
    load_files_version
      (check_course AIResult.disabled ⟨("CS101"), ("Intro"), 1, 2⟩ none
        [⟨("a.pdf"), ("Tutorial")⟩]
        ⟨some [], some [(("1"), [⟨("a.pdf"), ("Lecture")⟩])]⟩).1 1 =
      [⟨("a.pdf"), ("Tutorial")⟩] ∧
    (check_course AIResult.disabled ⟨("CS101"), ("Intro"), 1, 2⟩ none
        [⟨("a.pdf"), ("Tutorial")⟩]
        ⟨some [], some [(("1"), [⟨("a.pdf"), ("Lecture")⟩])]⟩).2 = [] := by
  decide

/-- C4 (amended): the stored file snapshot of a course is overwritten
whenever the fetched list is non-empty and differs from the stored one as
a raw list — including category-only or order-only differences, which the
diff engine reports as no change; in that case the snapshot is updated
but no file notification is dispatched (main.py lines 447-452). -/
theorem C4_overwrite_on_raw_list_change (ai : AIResult) (c : Course)
    (new_description : Option String) (new_files : List FileEntry) (st : Storage)
    (h1 : new_files ≠ []) (h2 : load_files_version st c.id ≠ new_files) :
    load_files_version (check_course ai c new_description new_files st).1 c.id =
      new_files ∧
    (diff_files (load_files_version st c.id) new_files = [] →
      ∀ e ∈ (check_course ai c new_description new_files st).2,
        e.category ≠ "cms-files") := by
  constructor
  · cases new_description with
    | none =>
      rw [check_course_none, if_pos ⟨h1, h2⟩]
      exact load_files_save_files st c.id new_files
    | some s =>
      by_cases hds : s ≠ "" ∧ load_description_version st c.id ≠ s
      · rw [check_course_some_taken ai c s new_files st hds, if_pos ⟨h1, h2⟩]
        exact load_files_save_files _ c.id new_files
      · rw [check_course_some_untaken ai c s new_files st hds, if_pos ⟨h1, h2⟩]
        exact load_files_save_files st c.id new_files
  · intro hdiff e he
    cases new_description with
    | none =>
      rw [check_course_none, if_pos ⟨h1, h2⟩] at he
      simp only [notify_files_events, hdiff, List.map_nil] at he
      simp at he
    | some s =>
      by_cases hds : s ≠ "" ∧ load_description_version st c.id ≠ s
      · rw [check_course_some_taken ai c s new_files st hds, if_pos ⟨h1, h2⟩] at he
        simp only [notify_files_events, hdiff, List.map_nil] at he
        simp only [List.mem_cons, List.not_mem_nil, or_false] at he
        subst he
        show ("cms-description" : String) ≠ ("cms-files")
        decide
      · rw [check_course_some_untaken ai c s new_files st hds, if_pos ⟨h1, h2⟩] at he
        simp only [notify_files_events, hdiff, List.map_nil] at he
        simp at he

/-- C4 witness: the overwritten snapshot holds the fetched list. -/
theorem C4_witness :
    load_files_version
      (check_course AIResult.disabled ⟨("CS101"), ("Intro"), 1, 2⟩ none
        [⟨("a.pdf"), ("Tutorial")⟩]
        ⟨some [], some [(("1"), [⟨("a.pdf"), ("Lecture")⟩])]⟩).1 1 =
      [⟨("a.pdf"), ("Tutorial")⟩] :=
  (C4_overwrite_on_raw_list_change AIResult.disabled ⟨("CS101"), ("Intro"), 1, 2⟩
    none [⟨("a.pdf"), ("Tutorial")⟩]
    ⟨some [], some [(("1"), [⟨("a.pdf"), ("Lecture")⟩])]⟩
    (by decide) (by decide)).1

/-! ### C9: per-course failure isolation -/

theorem run_cycle_map_fst
    (fetch : Course → Except String (Option String × List FileEntry))
    (ai : AIResult) (courses : List Course) :
    ∀ st : Storage, (run_cycle fetch ai courses st).2.map Prod.fst = courses := by
  induction courses with
  | nil => intro st; simp [run_cycle]
  | cons c rest ih =>
    intro st
    cases hp : process_course fetch ai c st with
    | ok v =>
      obtain ⟨st', evs⟩ := v
      simp [run_cycle, hp, ih]
    | error e =>
      simp [run_cycle, hp, ih]

theorem run_cycles_length
    (fetch : Course → Except String (Option String × List FileEntry))
    (ai : AIResult) (courses : List Course) :
    ∀ (k : Nat) (st : Storage), (run_cycles fetch ai courses k st).2.length = k := by
  intro k
  induction k with
  | zero => intro st; simp [run_cycles]
  | succ k ih => intro st; simp [run_cycles, ih]

/-- C9: per-course failure isolation.  Over any fetch oracle — in
particular one that raises for some courses — every course of the list
still contributes its entry to the cycle, in order (first conjunct); a
course whose processing raises is recorded as skipped and the remaining
courses are processed exactly as they would be from the same storage
(second conjunct); and the outer loop always reaches its next cycle: `k`
iterations always process `k` full cycles (third conjunct).  Everything
downstream of the fetch/parse step is total in the embedding because
`diff_description` and `send_notification` catch their own exceptions. -/
theorem C9_per_course_isolation
    (fetch : Course → Except String (Option String × List FileEntry))
    (ai : AIResult) (courses : List Course) (st : Storage) :
    ((run_cycle fetch ai courses st).2.map Prod.fst = courses) ∧
    (∀ c rest e, fetch c = Except.error e →
      (run_cycle fetch ai (c :: rest) st).2 =
        (c, none) :: (run_cycle fetch ai rest st).2) ∧
    (∀ k, (run_cycles fetch ai courses k st).2.length = k) := by
  refine ⟨run_cycle_map_fst fetch ai courses st, ?_, fun k => run_cycles_length fetch ai courses k st⟩
  intro c rest e h
  simp [run_cycle, process_course, h]

/-- C9 witness: a fetch oracle that always raises still yields one entry
for the head course and continues with the rest. -/
theorem C9_witness :
    (run_cycle (fun _ => Except.error ("boom")) AIResult.disabled
        [⟨("A"), ("Course A"), 1, 2⟩] ⟨none, none⟩).2 =
      (⟨("A"), ("Course A"), 1, 2⟩, none) ::
        (run_cycle (fun _ => Except.error ("boom")) AIResult.disabled []
          ⟨none, none⟩).2 :=
  (C9_per_course_isolation (fun _ => Except.error ("boom")) AIResult.disabled []
    ⟨none, none⟩).2.1 ⟨("A"), ("Course A"), 1, 2⟩ [] ("boom") rfl

end CMSNotifier
